import Mathlib

/-!
Verification of the Yarrow-style CSPRNG (`yarrow.py`) against its
natural-language specification.

The Python class `Yarrow` is embedded shallowly:

* a `Yarrow` structure mirrors the instance fields set in `__init__`
  (`entropy_pool`, `seed`, `reseed_interval`, `max_pool_size`,
  `last_reseed_time`); the `threading.Lock` is not represented, since no
  claim here concerns concurrency;
* byte strings are `List Nat`, wall-clock times and the float arithmetic
  on them are `ℚ`, Python integers are `Int`;
* each method becomes a function on the structure; external inputs that
  the methods read (`time.time()`, `os.urandom(32)`) become explicit
  arguments;
* `hashlib.sha256(...).digest()` is modelled by a full executable
  SHA-256 (FIPS 180-4) over byte lists, word arithmetic being `Nat`
  with explicit reduction modulo `2 ^ 32`;
* Python's floor-convention `%` is `Int.fmod`, Python's `b[-k:]` slice
  and `int.bit_length()` are modelled including their edge cases
  (`b[-0:]` is the whole buffer; `bit_length` of a negative number is
  the bit length of its absolute value).
-/

/-! ## SHA-256 (model of `hashlib.sha256(...).digest()`) -/

/-- Reduction of a word to 32 bits. -/
def w32 (x : Nat) : Nat := x % 4294967296

/-- Right rotation of a 32-bit word by `n`. -/
def rotr32 (n x : Nat) : Nat := w32 ((x >>> n) ||| (x <<< (32 - n)))

/-- The SHA-256 choice function; the complement is a 32-bit xor mask. -/
def shaCh (x y z : Nat) : Nat := (x &&& y) ^^^ ((x ^^^ 4294967295) &&& z)

/-- The SHA-256 majority function. -/
def shaMaj (x y z : Nat) : Nat := (x &&& y) ^^^ (x &&& z) ^^^ (y &&& z)

/-- Big sigma 0. -/
def bsig0 (x : Nat) : Nat := rotr32 2 x ^^^ rotr32 13 x ^^^ rotr32 22 x

/-- Big sigma 1. -/
def bsig1 (x : Nat) : Nat := rotr32 6 x ^^^ rotr32 11 x ^^^ rotr32 25 x

/-- Small sigma 0. -/
def ssig0 (x : Nat) : Nat := rotr32 7 x ^^^ rotr32 18 x ^^^ (x >>> 3)

/-- Small sigma 1. -/
def ssig1 (x : Nat) : Nat := rotr32 17 x ^^^ rotr32 19 x ^^^ (x >>> 10)

/-- The eight 32-bit words of SHA-256 working state. -/
structure SHAState where
  a : Nat
  b : Nat
  c : Nat
  d : Nat
  e : Nat
  f : Nat
  g : Nat
  h : Nat
deriving DecidableEq

/-- The SHA-256 initial hash value. -/
def shaIV : SHAState :=
  ⟨1779033703, 3144134277, 1013904242, 2773480762,
   1359893119, 2600822924, 528734635, 1541459225⟩

/-- The 64 SHA-256 round constants. -/
def shaK : List Nat :=
  [1116352408, 1899447441, 3049323471, 3921009573,
   961987163, 1508970993, 2453635748, 2870763221,
   3624381080, 310598401, 607225278, 1426881987,
   1925078388, 2162078206, 2614888103, 3248222580,
   3835390401, 4022224774, 264347078, 604807628,
   770255983, 1249150122, 1555081692, 1996064986,
   2554220882, 2821834349, 2952996808, 3210313671,
   3336571891, 3584528711, 113926993, 338241895,
   666307205, 773529912, 1294757372, 1396182291,
   1695183700, 1986661051, 2177026350, 2456956037,
   2730485921, 2820302411, 3259730800, 3345764771,
   3516065817, 3600352804, 4094571909, 275423344,
   430227734, 506948616, 659060556, 883997877,
   958139571, 1322822218, 1537002063, 1747873779,
   1955562222, 2024104815, 2227730452, 2361852424,
   2428436474, 2756734187, 3204031479, 3329325298]

/-- Big-endian bytes of a 32-bit word. -/
def wordBytesBE (x : Nat) : List Nat :=
  [(x >>> 24) &&& 255, (x >>> 16) &&& 255, (x >>> 8) &&& 255, x &&& 255]

/-- Big-endian 8-byte encoding of a length field. -/
def len64BE (n : Nat) : List Nat :=
  [(n >>> 56) &&& 255, (n >>> 48) &&& 255, (n >>> 40) &&& 255, (n >>> 32) &&& 255,
   (n >>> 24) &&& 255, (n >>> 16) &&& 255, (n >>> 8) &&& 255, n &&& 255]

/-- Parse `k` big-endian 32-bit words from a byte list. -/
def toWordsGo : Nat → List Nat → List Nat
  | 0, _ => []
  | k + 1, l =>
    (((l.getD 0 0 * 256 + l.getD 1 0) * 256 + l.getD 2 0) * 256 + l.getD 3 0) ::
      toWordsGo k (l.drop 4)

/-- Extend the 16-word message block by `k` message-schedule words. -/
def scheduleGo : Nat → List Nat → List Nat
  | 0, ws => ws
  | k + 1, ws =>
    scheduleGo k (ws ++ [w32 (ssig1 (ws.getD (ws.length - 2) 0) + ws.getD (ws.length - 7) 0 +
      ssig0 (ws.getD (ws.length - 15) 0) + ws.getD (ws.length - 16) 0)])

/-- One SHA-256 compression round, fed a pair of round constant and schedule word. -/
def roundStep (st : SHAState) (kw : Nat × Nat) : SHAState :=
  let t1 := w32 (st.h + bsig1 st.e + shaCh st.e st.f st.g + kw.1 + kw.2)
  let t2 := w32 (bsig0 st.a + shaMaj st.a st.b st.c)
  ⟨w32 (t1 + t2), st.a, st.b, st.c, w32 (st.d + t1), st.e, st.f, st.g⟩

/-- Compress one 64-byte block into the running hash state. -/
def processBlock (st : SHAState) (block : List Nat) : SHAState :=
  let ws := scheduleGo 48 (toWordsGo 16 block)
  let t := (shaK.zip ws).foldl roundStep st
  ⟨w32 (st.a + t.a), w32 (st.b + t.b), w32 (st.c + t.c), w32 (st.d + t.d),
   w32 (st.e + t.e), w32 (st.f + t.f), w32 (st.g + t.g), w32 (st.h + t.h)⟩

/-- FIPS 180-4 padding: `128`, zeros to 56 mod 64, then the bit length. -/
def padBytes (msg : List Nat) : List Nat :=
  msg ++ 128 :: (List.replicate ((119 - msg.length % 64) % 64) 0 ++ len64BE (msg.length * 8))

/-- Split a byte list into `k` consecutive 64-byte blocks. -/
def chunksGo : Nat → List Nat → List (List Nat)
  | 0, _ => []
  | k + 1, l => l.take 64 :: chunksGo k (l.drop 64)

/-- SHA-256 digest (32 bytes) of a byte list; models `hashlib.sha256(m).digest()`. -/
def sha256 (msg : List Nat) : List Nat :=
  let p := padBytes msg
  let st := (chunksGo (p.length / 64) p).foldl processBlock shaIV
  wordBytesBE st.a ++ wordBytesBE st.b ++ wordBytesBE st.c ++ wordBytesBE st.d ++
    wordBytesBE st.e ++ wordBytesBE st.f ++ wordBytesBE st.g ++ wordBytesBE st.h

/-! ## Python-semantics helpers -/

/-- Bit length with explicit fuel (the fuel argument only bounds recursion depth). -/
def bitLenGo : Nat → Nat → Nat
  | 0, _ => 0
  | fuel + 1, n => if n = 0 then 0 else bitLenGo fuel (n / 2) + 1

/-- Python `int.bit_length()`: the bit length of the absolute value. -/
def pyBitLength (i : Int) : Nat := bitLenGo i.natAbs i.natAbs

/-- Python `int.from_bytes(data, byteorder="big")`. -/
def intFromBytesBE (data : List Nat) : Int :=
  ((data.foldl (fun acc b => acc * 256 + b) 0 : Nat) : Int)

/-- Python `l[-k:]` for a nonnegative `k`: for `k = 0` this is `l[0:]`, the whole
list, because `-0 == 0`; otherwise the last `min k (length l)` elements. -/
def pySliceLast (k : Nat) (l : List Nat) : List Nat :=
  if k = 0 then l else l.drop (l.length - k)

/-! ## The `Yarrow` class -/

/-- The mutable instance state set up by `Yarrow.__init__` (the
`threading.Lock` field carries no data and is omitted). -/
structure Yarrow where
  entropy_pool : List Nat
  seed : List Nat
  reseed_interval : ℚ
  max_pool_size : Nat
  last_reseed_time : ℚ
deriving DecidableEq

namespace Yarrow

/-- Constructor: empty pool, empty seed, `last_reseed_time = time.time()`
(the current time is the explicit argument `now`). -/
def init (now : ℚ) (reseed_interval : ℚ) (max_pool_size : Nat) : Yarrow :=
  { entropy_pool := []
    seed := []
    reseed_interval := reseed_interval
    max_pool_size := max_pool_size
    last_reseed_time := now }

/-- Method `add_entropy`: extend the pool, then cut to the last
`max_pool_size` bytes when the bound is exceeded; empty data only prints
a warning and changes nothing. -/
def add_entropy (self : Yarrow) (data : List Nat) : Yarrow :=
  if data = [] then self
  else
    let pool := self.entropy_pool ++ data
    if pool.length > self.max_pool_size then
      { self with entropy_pool := pySliceLast self.max_pool_size pool }
    else
      { self with entropy_pool := pool }

/-- Method `add_entropy_sources`: `add_entropy` for each source in order. -/
def add_entropy_sources (self : Yarrow) (sources : List (List Nat)) : Yarrow :=
  sources.foldl add_entropy self

/-- Method `generate_seed`: `self.seed = hashlib.sha256(self.entropy_pool).digest()`. -/
def generate_seed (self : Yarrow) : Yarrow :=
  { self with seed := sha256 self.entropy_pool }

/-- The condition of method `reseed`:
`len(self.seed) >= self.reseed_interval or time.time() - self.last_reseed_time >= self.reseed_interval`. -/
def reseedDue (self : Yarrow) (now : ℚ) : Prop :=
  (self.seed.length : ℚ) ≥ self.reseed_interval ∨
    now - self.last_reseed_time ≥ self.reseed_interval

instance instDecidableReseedDue (self : Yarrow) (now : ℚ) :
    Decidable (self.reseedDue now) :=
  inferInstanceAs (Decidable (_ ∨ _))

/-- Method `reseed`: when the condition fails, nothing happens and the
call returns with the state unchanged.  When the condition holds the
source self-deadlocks: `reseed` is inside `with self.lock:` and calls
`generate_seed`, whose own `with self.lock:` blocks forever on the
non-reentrant `threading.Lock` already held — before any field is
updated.  The call never returns; `none` models that hang. -/
def reseed (self : Yarrow) (now : ℚ) : Option Yarrow :=
  if self.reseedDue now then none else some self

/-- The `while len(random_bytes) < n` loop of `generate_random_bytes`:
`prng = hashlib.sha256(prng).digest(); random_bytes.extend(prng)`.
The fuel argument only bounds the recursion depth; since every iteration
appends a 32-byte digest, fuel `n` never runs out (`genLoopGo_length`). -/
def genLoopGo (n : Nat) : Nat → List Nat → List Nat → List Nat
  | 0, _, acc => acc
  | fuel + 1, prng, acc =>
    if acc.length < n then genLoopGo n fuel (sha256 prng) (acc ++ sha256 prng)
    else acc

/-- Method `generate_random_bytes`: calls `reseed` — and therefore hangs
with it whenever a reseed is due — then seeds the loop variable `prng`
with `os.urandom(32)` (the explicit `urandom` argument) and returns the
first `n` bytes of the hash chain.  The ambient time read by `reseed` is
the explicit `now` argument. -/
def generate_random_bytes (self : Yarrow) (now : ℚ) (urandom : List Nat) (n : Nat) :
    Option (Yarrow × List Nat) :=
  match self.reseed now with
  | none => none
  | some s2 => some (s2, (genLoopGo n n urandom []).take n)

/-- The arithmetic `generate_random_number` applies to the drawn byte
string: `low + int.from_bytes(random_data, "big") % range_size`, with
Python's floor-convention `%` (`Int.fmod`); `range_size = 0` raises
`ZeroDivisionError`, modelled as `none`. -/
def numberFromDraw (low high : Int) (data : List Nat) : Option Int :=
  let range_size := high - low + 1
  if range_size = 0 then none
  else some (low + (intFromBytesBE data).fmod range_size)

/-- Method `generate_random_number`: `num_bytes = (range_size.bit_length() + 7) // 8`
bytes are drawn from `generate_random_bytes` — whose hang, when a reseed
is due, propagates — and reduced by `numberFromDraw`. -/
def generate_random_number (self : Yarrow) (now : ℚ) (urandom : List Nat)
    (low high : Int) : Option (Yarrow × Option Int) :=
  let range_size := high - low + 1
  let num_bytes := (pyBitLength range_size + 7) / 8
  match self.generate_random_bytes now urandom num_bytes with
  | none => none
  | some r => some (r.1, numberFromDraw low high r.2)

/-- Method `chi_squared_test` (it reads no instance state): observed count
of each of the 256 byte values against `expected = len(data) / 256`,
returning `scipy.stats.chisquare`'s statistic, the sum of
`(observed - expected)^2 / expected`.  For empty data every expected
count is zero and the statistic is not a number; that is `none`. -/
def chi_squared_test (data : List Nat) : Option ℚ :=
  if data.length = 0 then none
  else
    let expected : ℚ := (data.length : ℚ) / 256
    some (((List.range 256).map
      (fun x => ((data.count x : ℚ) - expected) ^ 2 / expected)).sum)

/-- Method `configure`: overwrite exactly the supplied fields. -/
def configure (self : Yarrow) (reseed_interval : Option ℚ)
    (max_pool_size : Option Nat) : Yarrow :=
  let s1 := match reseed_interval with
    | some ri => { self with reseed_interval := ri }
    | none => self
  match max_pool_size with
  | some mps => { s1 with max_pool_size := mps }
  | none => s1

/-- The states a `Yarrow` instance can reach: constructed by `__init__`,
then transformed by the public methods.  `add_system_entropy`,
`add_user_entropy` and `add_entropy_sources` only funnel byte strings
into `add_entropy`, so the `add_entropy` and `add_entropy_sources`
constructors cover them.  A call that hangs in the reseed deadlock
(result `none`) never returns, so it yields no successor state. -/
inductive Reachable : Yarrow → Prop
  | init (now reseed_interval : ℚ) (max_pool_size : Nat) :
      Reachable (Yarrow.init now reseed_interval max_pool_size)
  | add_entropy {s : Yarrow} (data : List Nat) :
      Reachable s → Reachable (s.add_entropy data)
  | add_entropy_sources {s : Yarrow} (sources : List (List Nat)) :
      Reachable s → Reachable (s.add_entropy_sources sources)
  | generate_seed {s : Yarrow} :
      Reachable s → Reachable s.generate_seed
  | reseed {s s2 : Yarrow} (now : ℚ) :
      Reachable s → s.reseed now = some s2 → Reachable s2
  | generate_random_bytes {s s2 : Yarrow} (now : ℚ) (urandom : List Nat) (n : Nat)
      (out : List Nat) :
      Reachable s → s.generate_random_bytes now urandom n = some (s2, out) → Reachable s2
  | generate_random_number {s s2 : Yarrow} (now : ℚ) (urandom : List Nat)
      (low high : Int) (res : Option Int) :
      Reachable s → s.generate_random_number now urandom low high = some (s2, res) →
      Reachable s2
  | configure {s : Yarrow} (reseed_interval : Option ℚ) (max_pool_size : Option Nat) :
      Reachable s → Reachable (s.configure reseed_interval max_pool_size)

end Yarrow

/-! ## Helper lemmas: which fields each method touches -/

namespace Yarrow

theorem add_entropy_seed (s : Yarrow) (d : List Nat) : (s.add_entropy d).seed = s.seed := by
  simp only [add_entropy]
  split_ifs <;> rfl

theorem add_entropy_max_pool_size (s : Yarrow) (d : List Nat) :
    (s.add_entropy d).max_pool_size = s.max_pool_size := by
  simp only [add_entropy]
  split_ifs <;> rfl

theorem add_entropy_reseed_interval (s : Yarrow) (d : List Nat) :
    (s.add_entropy d).reseed_interval = s.reseed_interval := by
  simp only [add_entropy]
  split_ifs <;> rfl

theorem add_entropy_last_reseed_time (s : Yarrow) (d : List Nat) :
    (s.add_entropy d).last_reseed_time = s.last_reseed_time := by
  simp only [add_entropy]
  split_ifs <;> rfl

theorem add_entropy_sources_seed (sources : List (List Nat)) :
    ∀ s : Yarrow, (s.add_entropy_sources sources).seed = s.seed := by
  induction sources with
  | nil => intro s; rfl
  | cons d ds ih =>
    intro s
    show ((s.add_entropy d).add_entropy_sources ds).seed = s.seed
    rw [ih, add_entropy_seed]

theorem configure_seed (s : Yarrow) (ri : Option ℚ) (mps : Option Nat) :
    (s.configure ri mps).seed = s.seed := by
  unfold configure
  cases ri <;> cases mps <;> rfl

end Yarrow

/-- The digest of the SHA-256 model is always 32 bytes, as `hashlib`'s is. -/
theorem sha256_length (msg : List Nat) : (sha256 msg).length = 32 := by
  simp [sha256, wordBytesBE]

/-- Python `%` by `-1` is always `0` (floor convention). -/
theorem fmod_neg_one (x : Int) : x.fmod (-1) = 0 := by
  cases x with
  | ofNat n =>
    cases n with
    | zero => rfl
    | succ m =>
      show Int.subNatNat (m % 1) 0 = 0
      simp [Nat.mod_one, Int.subNatNat]
  | negSucc m =>
    show -Int.ofNat ((m + 1) % 1) = 0
    simp [Nat.mod_one]

/-- The keystream loop always has enough fuel: each iteration appends a
32-byte digest, so `fuel` iterations reach `32 * fuel` bytes. -/
theorem genLoopGo_length (n : Nat) :
    ∀ (fuel : Nat) (prng acc : List Nat), n ≤ acc.length + 32 * fuel →
      n ≤ (Yarrow.genLoopGo n fuel prng acc).length := by
  intro fuel
  induction fuel with
  | zero =>
    intro prng acc h
    show n ≤ acc.length
    omega
  | succ fuel ih =>
    intro prng acc h
    show n ≤ (if acc.length < n then
        Yarrow.genLoopGo n fuel (sha256 prng) (acc ++ sha256 prng) else acc).length
    split
    · apply ih
      rw [List.length_append, sha256_length]
      omega
    · omega

/-- When a reseed is due, `reseed` enters the self-deadlock and never
returns. -/
theorem reseed_due_hangs (s : Yarrow) (now : ℚ) (h : s.reseedDue now) :
    s.reseed now = none := by
  unfold Yarrow.reseed
  rw [if_pos h]

/-- If `reseed` returns at all, no reseed was due and the state is
unchanged (the due branch hangs before touching any field). -/
theorem reseed_some {s s2 : Yarrow} {now : ℚ} (h : s.reseed now = some s2) :
    s2 = s := by
  unfold Yarrow.reseed at h
  split_ifs at h
  injection h with h2
  exact h2.symm

/-- `generate_random_bytes` on a state with no reseed due returns the
unchanged state and the first `n` keystream bytes. -/
theorem generate_random_bytes_not_due (s : Yarrow) (now : ℚ) (u : List Nat) (n : Nat)
    (h : ¬ s.reseedDue now) :
    s.generate_random_bytes now u n = some (s, (Yarrow.genLoopGo n n u []).take n) := by
  unfold Yarrow.generate_random_bytes Yarrow.reseed
  rw [if_neg h]

/-- `generate_random_bytes` hangs in the reseed deadlock whenever a reseed
is due. -/
theorem generate_random_bytes_due_hangs (s : Yarrow) (now : ℚ) (u : List Nat) (n : Nat)
    (h : s.reseedDue now) :
    s.generate_random_bytes now u n = none := by
  unfold Yarrow.generate_random_bytes
  rw [reseed_due_hangs s now h]

/-- If `generate_random_bytes` returns, the state is unchanged. -/
theorem generate_random_bytes_state {s : Yarrow} {now : ℚ} {u : List Nat} {n : Nat}
    {r : Yarrow × List Nat} (h : s.generate_random_bytes now u n = some r) :
    r.1 = s := by
  unfold Yarrow.generate_random_bytes at h
  cases hre : s.reseed now with
  | none => simp [hre] at h
  | some s2 =>
    simp only [hre, Option.some.injEq] at h
    rw [← h]
    exact reseed_some hre

/-- Pair form of `generate_random_bytes_state`. -/
theorem generate_random_bytes_state_pair {s s2 : Yarrow} {now : ℚ} {u : List Nat}
    {n : Nat} {out : List Nat}
    (h : s.generate_random_bytes now u n = some (s2, out)) : s2 = s :=
  generate_random_bytes_state h

/-- If `generate_random_bytes` returns, the returned bytes are the first
`n` bytes of the `urandom`-rooted hash chain. -/
theorem generate_random_bytes_bytes {s : Yarrow} {now : ℚ} {u : List Nat} {n : Nat}
    {r : Yarrow × List Nat} (h : s.generate_random_bytes now u n = some r) :
    r.2 = (Yarrow.genLoopGo n n u []).take n := by
  unfold Yarrow.generate_random_bytes at h
  cases hre : s.reseed now with
  | none => simp [hre] at h
  | some s2 =>
    simp only [hre, Option.some.injEq] at h
    rw [← h]

/-- `generate_random_number` on a state with no reseed due returns the
unchanged state and the reduced draw. -/
theorem generate_random_number_not_due (s : Yarrow) (now : ℚ) (u : List Nat)
    (low high : Int) (h : ¬ s.reseedDue now) :
    s.generate_random_number now u low high =
      some (s, Yarrow.numberFromDraw low high
        ((Yarrow.genLoopGo ((pyBitLength (high - low + 1) + 7) / 8)
          ((pyBitLength (high - low + 1) + 7) / 8) u []).take
          ((pyBitLength (high - low + 1) + 7) / 8))) := by
  unfold Yarrow.generate_random_number
  dsimp only
  rw [generate_random_bytes_not_due s now u _ h]

/-- If `generate_random_number` returns, its value component is
`numberFromDraw` applied to the drawn bytes. -/
theorem generate_random_number_result {s : Yarrow} {now : ℚ} {u : List Nat}
    {low high : Int} {r : Yarrow × Option Int}
    (h : s.generate_random_number now u low high = some r) :
    r.2 = Yarrow.numberFromDraw low high
      ((Yarrow.genLoopGo ((pyBitLength (high - low + 1) + 7) / 8)
        ((pyBitLength (high - low + 1) + 7) / 8) u []).take
        ((pyBitLength (high - low + 1) + 7) / 8)) := by
  unfold Yarrow.generate_random_number at h
  dsimp only at h
  cases hg : s.generate_random_bytes now u ((pyBitLength (high - low + 1) + 7) / 8) with
  | none => simp [hg] at h
  | some r2 =>
    simp only [hg, Option.some.injEq] at h
    rw [← h]
    dsimp only
    rw [generate_random_bytes_bytes hg]

/-- If `generate_random_number` returns, the state is unchanged. -/
theorem generate_random_number_state {s : Yarrow} {now : ℚ} {u : List Nat}
    {low high : Int} {r : Yarrow × Option Int}
    (h : s.generate_random_number now u low high = some r) :
    r.1 = s := by
  unfold Yarrow.generate_random_number at h
  dsimp only at h
  cases hg : s.generate_random_bytes now u ((pyBitLength (high - low + 1) + 7) / 8) with
  | none => simp [hg] at h
  | some r2 =>
    simp only [hg, Option.some.injEq] at h
    rw [← h]
    exact generate_random_bytes_state hg

/-- Pair form of `generate_random_number_state`. -/
theorem generate_random_number_state_pair {s s2 : Yarrow} {now : ℚ} {u : List Nat}
    {low high : Int} {res : Option Int}
    (h : s.generate_random_number now u low high = some (s2, res)) : s2 = s :=
  generate_random_number_state h

/-- The reduction step of `generate_random_number` stays in `[low, high]`
for a nonempty range, whatever bytes were drawn. -/
theorem numberFromDraw_in_range (low high : Int) (data : List Nat) (h : low ≤ high) :
    ∃ v, Yarrow.numberFromDraw low high data = some v ∧ low ≤ v ∧ v ≤ high := by
  have hpos : (0 : Int) < high - low + 1 := by omega
  have h0 := Int.fmod_nonneg' (intFromBytesBE data) hpos
  have h1 := Int.fmod_lt_of_pos (intFromBytesBE data) hpos
  refine ⟨low + (intFromBytesBE data).fmod (high - low + 1), ?_, by omega, by omega⟩
  unfold Yarrow.numberFromDraw
  dsimp only
  rw [if_neg (show ¬(high - low + 1 = 0) by omega)]

/-- For the inverted range `(5, 3)` the range size is `-1` and the floor
modulo collapses every draw to `0`, so `numberFromDraw` returns `5`. -/
theorem numberFromDraw_inverted (data : List Nat) :
    Yarrow.numberFromDraw 5 3 data = some 5 := by
  unfold Yarrow.numberFromDraw
  norm_num [fmod_neg_one]

/-- A freshly constructed generator with the default interval has no
reseed due at its construction time. -/
theorem init_default_not_due : ¬ (Yarrow.init 0 10000 4096).reseedDue 0 := by
  unfold Yarrow.reseedDue
  push_neg
  constructor <;> norm_num [Yarrow.init]

/-- At elapsed time `10000` the default interval makes a reseed due. -/
theorem init_default_due : (Yarrow.init 0 10000 4096).reseedDue 10000 := by
  unfold Yarrow.reseedDue
  right
  norm_num [Yarrow.init]

/-- After a direct `generate_seed` call the fresh generator still has no
reseed due at time `0`: its seed has 32 bytes, far below the interval. -/
theorem init_generate_seed_not_due :
    ¬ ((Yarrow.init 0 10000 4096).generate_seed).reseedDue 0 := by
  unfold Yarrow.reseedDue
  push_neg
  constructor
  · rw [show ((Yarrow.init 0 10000 4096).generate_seed).seed = sha256 [] from rfl,
      sha256_length]
    norm_num [Yarrow.generate_seed, Yarrow.init]
  · norm_num [Yarrow.generate_seed, Yarrow.init]

/-! ## Claim theorems -/

set_option maxRecDepth 8000

/-- C6: the claim fails on the deadlock path.  First conjunct: on a fresh
generator whose `reseed_interval` (10000) has elapsed,
`generate_random_bytes(32)` enters the due branch of `reseed`,
re-acquires the non-reentrant lock inside `generate_seed`, and hangs
forever — the call returns nothing at all (`none`), not 32 bytes.
Second conjunct: whenever the call does return, the output has exactly
`n` bytes. -/
theorem generate_random_bytes_deadlock_or_exact_length :
    ((Yarrow.init 0 10000 4096).generate_random_bytes 10000 (List.replicate 32 0) 32 =
      none) ∧
    (∀ (s : Yarrow) (now : ℚ) (u : List Nat) (n : Nat) (r : Yarrow × List Nat),
      s.generate_random_bytes now u n = some r → r.2.length = n) := by
  constructor
  · exact generate_random_bytes_due_hangs _ _ _ _ init_default_due
  · intro s now u n r h
    rw [generate_random_bytes_bytes h, List.length_take]
    have := genLoopGo_length n n u [] (by simp; omega)
    omega

/-- Witness for C6's returning path: a non-deadlocking call with `n = 32`
returns exactly 32 bytes. -/
theorem generate_random_bytes_deadlock_or_exact_length_witness :
    (((Yarrow.init 0 10000 4096),
        (Yarrow.genLoopGo 32 32 (List.replicate 32 0) []).take 32) :
      Yarrow × List Nat).2.length = 32 :=
  generate_random_bytes_deadlock_or_exact_length.2 (Yarrow.init 0 10000 4096) 0
    (List.replicate 32 0) 32 _
    (generate_random_bytes_not_due _ _ _ _ init_default_not_due)

/-- C5: for `high < low`, `generate_random_number` raises no
`InvalidRangeError` (none exists in the code).  First conjunct: at
`(low, high) = (5, 3)` the range size is `-1`, Python's floor-convention
`%` by `-1` is `0`, and every call that returns silently returns `5`
whatever bytes were drawn.  Second conjunct: on a fresh non-deadlocking
instance the call does return, yielding `5`. -/
theorem generate_random_number_no_invalid_range_error :
    (∀ (s : Yarrow) (now : ℚ) (u : List Nat) (r : Yarrow × Option Int),
      s.generate_random_number now u 5 3 = some r → r.2 = some 5) ∧
    (Yarrow.init 0 10000 4096).generate_random_number 0 (List.replicate 32 0) 5 3 =
      some (Yarrow.init 0 10000 4096, some 5) := by
  constructor
  · intro s now u r h
    rw [generate_random_number_result h, numberFromDraw_inverted]
  · rw [generate_random_number_not_due _ _ _ _ _ init_default_not_due,
      numberFromDraw_inverted]

/-- Witness for C5's first conjunct at the fresh instance. -/
theorem generate_random_number_no_invalid_range_error_witness :
    ((Yarrow.init 0 10000 4096, (some 5 : Option Int)) : Yarrow × Option Int).2 =
      some 5 :=
  generate_random_number_no_invalid_range_error.1 (Yarrow.init 0 10000 4096) 0
    (List.replicate 32 0) _ generate_random_number_no_invalid_range_error.2

/-- C9: `configure(max_pool_size=2)` on a pool holding 10 bytes does not
evict: the pool still holds all 10 bytes after `configure` returns, even
though the bound is now 2 (eviction happens only on a later nonempty
`add_entropy`). -/
theorem configure_does_not_evict :
    ((((Yarrow.init 0 10000 4096).add_entropy
        [0, 1, 2, 3, 4, 5, 6, 7, 8, 9]).configure none (some 2)).max_pool_size = 2) ∧
    ((((Yarrow.init 0 10000 4096).add_entropy
        [0, 1, 2, 3, 4, 5, 6, 7, 8, 9]).configure none (some 2)).entropy_pool =
      [0, 1, 2, 3, 4, 5, 6, 7, 8, 9]) := by
  constructor
  · rfl
  · rfl

/-- C2: the reseed decision compares `len(self.seed)` — not the bytes
accumulated into the pool — and compares both branches against the single
field `reseed_interval`.  First conjunct: feeding any entropy never
changes whether a reseed is due.  Second conjunct: a generator built at
time 0 with `reseed_interval = 100` that has accumulated 120 bytes of
entropy still does not reseed at time 1 (the call returns with the state
unchanged), although the claim's byte-count trigger `120 >= 100` holds. -/
theorem reseed_decision_ignores_entropy_accumulation :
    (∀ (s : Yarrow) (data : List Nat) (now : ℚ),
      (s.add_entropy data).reseedDue now ↔ s.reseedDue now) ∧
    Yarrow.reseed
      (((Yarrow.init 0 100 50).add_entropy (List.replicate 60 7)).add_entropy
        (List.replicate 60 9)) 1 =
      some (((Yarrow.init 0 100 50).add_entropy (List.replicate 60 7)).add_entropy
        (List.replicate 60 9)) := by
  constructor
  · intro s data now
    unfold Yarrow.reseedDue
    rw [Yarrow.add_entropy_seed, Yarrow.add_entropy_reseed_interval,
      Yarrow.add_entropy_last_reseed_time]
  · have hseed : (((Yarrow.init 0 100 50).add_entropy (List.replicate 60 7)).add_entropy
        (List.replicate 60 9)).seed = [] := by
      rw [Yarrow.add_entropy_seed, Yarrow.add_entropy_seed]
      rfl
    have htime : (((Yarrow.init 0 100 50).add_entropy (List.replicate 60 7)).add_entropy
        (List.replicate 60 9)).last_reseed_time = 0 := by
      rw [Yarrow.add_entropy_last_reseed_time, Yarrow.add_entropy_last_reseed_time]
      rfl
    have hint : (((Yarrow.init 0 100 50).add_entropy (List.replicate 60 7)).add_entropy
        (List.replicate 60 9)).reseed_interval = 100 := by
      rw [Yarrow.add_entropy_reseed_interval, Yarrow.add_entropy_reseed_interval]
      rfl
    have hnd : ¬ (((Yarrow.init 0 100 50).add_entropy (List.replicate 60 7)).add_entropy
        (List.replicate 60 9)).reseedDue 1 := by
      unfold Yarrow.reseedDue
      rw [hseed, htime, hint]
      push_neg
      constructor
      · norm_num
      · norm_num
    unfold Yarrow.reseed
    rw [if_neg hnd]

/-- C1: the keystream of `generate_random_bytes` is rooted in the fresh
`os.urandom(32)` draw of that call, not in the pool-derived seed.  First
conjunct: whenever two calls return, their output bytes are the same
whatever the two generator states — in particular whatever `self.seed` —
as long as the per-call OS draw is the same.  Second conjunct: from one
identical (non-deadlocking) state, two calls whose OS draws differ return
different output, so the output is not a function of the seed/chain state
at the start of the call. -/
theorem generate_random_bytes_ignores_seed_state :
    (∀ (s s' : Yarrow) (now now' : ℚ) (u : List Nat) (n : Nat)
      (r r' : Yarrow × List Nat),
      s.generate_random_bytes now u n = some r →
      s'.generate_random_bytes now' u n = some r' → r.2 = r'.2) ∧
    (Yarrow.init 0 10000 4096).generate_random_bytes 0 (List.replicate 32 0) 1 ≠
      (Yarrow.init 0 10000 4096).generate_random_bytes 0 (List.replicate 32 1) 1 := by
  constructor
  · intro s s' now now' u n r r' h h'
    rw [generate_random_bytes_bytes h, generate_random_bytes_bytes h']
  · intro hcontra
    rw [generate_random_bytes_not_due _ _ _ _ init_default_not_due,
      generate_random_bytes_not_due _ _ _ _ init_default_not_due] at hcontra
    have h2 : ((Yarrow.genLoopGo 1 1 (List.replicate 32 0) []).take 1) =
        ((Yarrow.genLoopGo 1 1 (List.replicate 32 1) []).take 1) :=
      congrArg (fun o => (o.getD (Yarrow.init 0 10000 4096, [])).2) hcontra
    exact absurd h2 (by decide)

/-- Witness for C1's first conjunct: two states with different seeds — a
fresh instance and one that ran `generate_seed` — give the same output
for the same draw. -/
theorem generate_random_bytes_ignores_seed_state_witness :
    (((Yarrow.init 0 10000 4096),
        (Yarrow.genLoopGo 16 16 (List.replicate 32 0) []).take 16) :
      Yarrow × List Nat).2 =
    ((((Yarrow.init 0 10000 4096).generate_seed),
        (Yarrow.genLoopGo 16 16 (List.replicate 32 0) []).take 16) :
      Yarrow × List Nat).2 :=
  generate_random_bytes_ignores_seed_state.1
    (Yarrow.init 0 10000 4096) ((Yarrow.init 0 10000 4096).generate_seed) 0 0
    (List.replicate 32 0) 16 _ _
    (generate_random_bytes_not_due _ _ _ _ init_default_not_due)
    (generate_random_bytes_not_due _ _ _ _ init_generate_seed_not_due)

/-- C8: `chi_squared_test` applies scipy's chi-squared formula to any
nonempty sample and raises no `InsufficientSampleError` (none exists in
the code): on the one-byte sample `b"\x00"` — far below any meaningful
minimum — it returns the statistic `255` instead of failing. -/
theorem chi_squared_test_no_insufficient_sample_error :
    Yarrow.chi_squared_test [0] = some 255 := by
  unfold Yarrow.chi_squared_test
  rw [if_neg (by simp)]
  refine congrArg some ?_
  have hrange : List.range 256 = 0 :: List.range' 1 255 := by decide
  rw [hrange, List.map_cons, List.sum_cons]
  rw [List.map_congr_left (g := fun _ => ((0 : ℚ) - ([0].length : ℚ) / 256) ^ 2 /
      (([0].length : ℚ) / 256)) ?_]
  · rw [List.map_const', List.sum_replicate, List.length_range']
    norm_num
  · intro x hx
    have hx1 : 1 ≤ x := (List.mem_range'_1.mp hx).1
    have : List.count x [0] = 0 := List.count_eq_zero.mpr (by simp; omega)
    rw [this, Nat.cast_zero]

/-- C7: the claim fails on the deadlock path.  First conjunct: on a fresh
generator whose `reseed_interval` (10000) has elapsed,
`generate_random_number(1, 6)` goes through `reseed`'s due branch,
deadlocks on the re-acquired lock, and never returns any value of
`[1, 6]`.  Second conjunct: whenever the call does return and
`low <= high`, the returned value lies in `[low, high]` inclusive (the
range size is positive, the drawn integer nonnegative, and Python's
floor-convention `%` by the positive range size lies in
`[0, range_size)`). -/
theorem generate_random_number_deadlock_or_in_range :
    ((Yarrow.init 0 10000 4096).generate_random_number 10000
      (List.replicate 32 0) 1 6 = none) ∧
    (∀ (s : Yarrow) (now : ℚ) (u : List Nat) (low high : Int), low ≤ high →
      ∀ r : Yarrow × Option Int, s.generate_random_number now u low high = some r →
        ∃ v, r.2 = some v ∧ low ≤ v ∧ v ≤ high) := by
  constructor
  · unfold Yarrow.generate_random_number
    dsimp only
    rw [generate_random_bytes_due_hangs _ _ _ _ init_default_due]
  · intro s now u low high hle r h
    rw [generate_random_number_result h]
    exact numberFromDraw_in_range low high _ hle

/-- Witness for C7's returning path at `(low, high) = (1, 6)` on a fresh
non-deadlocking generator. -/
theorem generate_random_number_deadlock_or_in_range_witness :
    ∃ v, ((Yarrow.init 0 10000 4096, Yarrow.numberFromDraw 1 6
        ((Yarrow.genLoopGo 1 1 (List.replicate 32 0) []).take 1)) :
      Yarrow × Option Int).2 = some v ∧ 1 ≤ v ∧ v ≤ 6 :=
  generate_random_number_deadlock_or_in_range.2 (Yarrow.init 0 10000 4096) 0
    (List.replicate 32 0) 1 6 (by omega) _
    (generate_random_number_not_due _ _ _ _ _ init_default_not_due)

/-- C4: `generate_random_number` keeps raw modulo reduction, with no
rejection loop.  First conjunct: for `(low, high) = (0, 2)` the call is
exactly the one-byte draw pushed through `low + x % range_size` (with the
draw's hang, when a reseed is due, passed through).  Second and third
conjuncts: of the 256 possible one-byte draws, 86 map to the value 0 but
only 85 map to the value 1, so the values of `[0, 2]` are not reached by
the same number of draws — the modulo bias the claim says rejection
sampling rules out. -/
theorem generate_random_number_modulo_bias :
    (∀ (s : Yarrow) (now : ℚ) (u : List Nat),
      s.generate_random_number now u 0 2 =
        (s.generate_random_bytes now u 1).map
          (fun r => (r.1, Yarrow.numberFromDraw 0 2 r.2))) ∧
    ((List.range 256).filter
      (fun b => Yarrow.numberFromDraw 0 2 [b] = some 0)).length = 86 ∧
    ((List.range 256).filter
      (fun b => Yarrow.numberFromDraw 0 2 [b] = some 1)).length = 85 := by
  refine ⟨?_, by decide, by decide⟩
  intro s now u
  show (match s.generate_random_bytes now u 1 with
    | none => none
    | some r => some (r.1, Yarrow.numberFromDraw 0 2 r.2)) = _
  cases s.generate_random_bytes now u 1 <;> rfl

/-- Taking the last `k` elements (as `drop (length - k)`) is unaffected by
first cutting the left part to its own last `k` elements. -/
theorem rtake_rtake_append (k : Nat) (c d : List Nat) :
    (c.drop (c.length - k) ++ d).drop ((c.drop (c.length - k) ++ d).length - k) =
      (c ++ d).drop ((c ++ d).length - k) := by
  rw [List.drop_append_eq_append_drop, List.drop_append_eq_append_drop, List.drop_drop]
  congr 1
  · congr 1
    simp only [List.length_append, List.length_drop]
    omega
  · congr 1
    simp only [List.length_append, List.length_drop]
    omega

/-- One nonempty `add_entropy` step, on a positive capacity, leaves the pool
equal to the last `max_pool_size` bytes of old pool plus data. -/
theorem add_entropy_pool_rtake (s : Yarrow) (data : List Nat)
    (hk : 1 ≤ s.max_pool_size) (hd : data ≠ []) :
    (s.add_entropy data).entropy_pool =
      (s.entropy_pool ++ data).drop ((s.entropy_pool ++ data).length - s.max_pool_size) := by
  simp only [Yarrow.add_entropy, if_neg hd]
  split_ifs with hlen
  · show pySliceLast s.max_pool_size (s.entropy_pool ++ data) = _
    unfold pySliceLast
    rw [if_neg (by omega)]
  · show s.entropy_pool ++ data = _
    rw [Nat.sub_eq_zero_of_le (by omega), List.drop_zero]

/-- Folding a sequence of `add_entropy` calls keeps the pool equal to the
last `max_pool_size` bytes of everything contributed so far. -/
theorem foldl_add_entropy_pool (k : Nat) (hk : 1 ≤ k) (datas : List (List Nat)) :
    ∀ (s : Yarrow) (c : List Nat), s.max_pool_size = k →
      s.entropy_pool = c.drop (c.length - k) →
      (datas.foldl Yarrow.add_entropy s).entropy_pool =
        (c ++ datas.flatten).drop ((c ++ datas.flatten).length - k) := by
  induction datas with
  | nil =>
    intro s c hm hp
    simpa using hp
  | cons d ds ih =>
    intro s c hm hp
    simp only [List.foldl_cons, List.flatten_cons]
    by_cases hd : d = []
    · subst hd
      have hskip : s.add_entropy [] = s := by
        simp [Yarrow.add_entropy]
      rw [hskip, ← List.append_assoc]
      exact ih s (c ++ []) hm (by simpa using hp)
    · have h2 : (s.add_entropy d).entropy_pool =
          (c ++ d).drop ((c ++ d).length - k) := by
        rw [add_entropy_pool_rtake s d (by omega) hd, hp, hm]
        exact rtake_rtake_append k c d
      have hm2 : (s.add_entropy d).max_pool_size = k := by
        rw [Yarrow.add_entropy_max_pool_size, hm]
      rw [← List.append_assoc]
      exact ih (s.add_entropy d) (c ++ d) hm2 h2

/-- C3 (amended: a positive capacity is required): starting from a fresh
generator with capacity `k >= 1`, after any sequence of `add_entropy`
calls the pool length never exceeds `k`, and once the accumulated
contributions exceed `k` the pool is exactly the last `k` bytes
contributed (ring-buffer semantics). -/
theorem entropy_pool_bounded_ring_buffer (k : Nat) (hk : 1 ≤ k) (now ri : ℚ)
    (datas : List (List Nat)) :
    ((datas.foldl Yarrow.add_entropy (Yarrow.init now ri k)).entropy_pool).length ≤ k ∧
      (k < datas.flatten.length →
        (datas.foldl Yarrow.add_entropy (Yarrow.init now ri k)).entropy_pool =
          datas.flatten.drop (datas.flatten.length - k)) := by
  have h := foldl_add_entropy_pool k hk datas (Yarrow.init now ri k) [] rfl
    (by simp [Yarrow.init])
  simp only [List.nil_append] at h
  refine ⟨?_, fun _ => h⟩
  rw [h, List.length_drop]
  omega

/-- Witness for C3 on the specification's own example: capacity 4 with
additions `b"ab"`, `b"cdef"` leaves exactly the last four bytes
`b"cdef"`. -/
theorem entropy_pool_bounded_ring_buffer_witness :
    (([[97, 98], [99, 100, 101, 102]].foldl Yarrow.add_entropy
        (Yarrow.init 0 10000 4)).entropy_pool).length ≤ 4 ∧
      (4 < [[97, 98], [99, 100, 101, 102]].flatten.length →
        ([[97, 98], [99, 100, 101, 102]].foldl Yarrow.add_entropy
            (Yarrow.init 0 10000 4)).entropy_pool =
          [[97, 98], [99, 100, 101, 102]].flatten.drop
            ([[97, 98], [99, 100, 101, 102]].flatten.length - 4)) :=
  entropy_pool_bounded_ring_buffer 4 (by omega) 0 10000 [[97, 98], [99, 100, 101, 102]]

/-- Counterexample to C3 as stated: with `max_pool_size = 0` the Python
slice `pool[-0:]` is `pool[0:]`, the whole buffer, so one one-byte
`add_entropy` already leaves the pool longer than `max_pool_size`. -/
theorem entropy_pool_unbounded_at_zero_capacity :
    ¬ ((((Yarrow.init 0 10000 0).add_entropy [7]).entropy_pool).length ≤
      (Yarrow.init 0 10000 0).max_pool_size) := by
  decide

/-- In every reachable state the seed is the initial empty byte string or
one 32-byte SHA-256 digest.  `reseed` — and hence the generation methods'
reseed step — either hangs or returns the state unchanged, so only a
direct `generate_seed` call ever writes the seed, and it writes a
32-byte digest. -/
theorem reachable_seed_inv {s : Yarrow} (h : Yarrow.Reachable s) :
    s.seed = [] ∨ s.seed.length = 32 := by
  induction h with
  | init now ri mps => exact Or.inl rfl
  | add_entropy data _ ih => rwa [Yarrow.add_entropy_seed]
  | add_entropy_sources sources _ ih => rwa [Yarrow.add_entropy_sources_seed]
  | generate_seed _ ih => exact Or.inr (sha256_length _)
  | reseed now _ hsome ih =>
    rw [reseed_some hsome]
    exact ih
  | generate_random_bytes now u n out _ hsome ih =>
    rw [generate_random_bytes_state_pair hsome]
    exact ih
  | generate_random_number now u low high res _ hsome ih =>
    rw [generate_random_number_state_pair hsome]
    exact ih
  | configure ri mps _ ih => rwa [Yarrow.configure_seed]

/-- C10: in every reachable state the seed is empty or exactly 32 bytes;
hence whenever `reseed_interval > 32` the byte-count branch
`len(seed) >= reseed_interval` of the reseed condition is false, and the
condition reduces to the elapsed-time comparison alone. -/
theorem reachable_seed_length_and_reseed_trigger (s : Yarrow)
    (hs : Yarrow.Reachable s) (hi : (32 : ℚ) < s.reseed_interval) :
    (s.seed = [] ∨ s.seed.length = 32) ∧
      ¬ ((s.seed.length : ℚ) ≥ s.reseed_interval) ∧
      (∀ now : ℚ, s.reseedDue now ↔ now - s.last_reseed_time ≥ s.reseed_interval) := by
  have hinv := reachable_seed_inv hs
  have hlen : (s.seed.length : ℚ) ≤ 32 := by
    rcases hinv with h | h
    · rw [h]
      norm_num
    · rw [h]
      norm_num
  have hbyte : ¬ ((s.seed.length : ℚ) ≥ s.reseed_interval) := by
    intro hge
    linarith
  refine ⟨hinv, hbyte, fun now => ?_⟩
  unfold Yarrow.reseedDue
  constructor
  · rintro (h | h)
    · exact absurd h hbyte
    · exact h
  · exact Or.inr

/-- Witness for C10 on a freshly constructed generator with
`reseed_interval = 100 > 32`. -/
theorem reachable_seed_length_and_reseed_trigger_witness :
    ((Yarrow.init 0 100 10).seed = [] ∨ (Yarrow.init 0 100 10).seed.length = 32) ∧
      ¬ (((Yarrow.init 0 100 10).seed.length : ℚ) ≥ (Yarrow.init 0 100 10).reseed_interval) ∧
      (∀ now : ℚ, (Yarrow.init 0 100 10).reseedDue now ↔
        now - (Yarrow.init 0 100 10).last_reseed_time ≥ (Yarrow.init 0 100 10).reseed_interval) :=
  reachable_seed_length_and_reseed_trigger (Yarrow.init 0 100 10)
    (Yarrow.Reachable.init 0 100 10)
    (by show (32 : ℚ) < 100; norm_num)
